import Mathlib

/-!
Verification development for the photo-booth application (pailide).

The embedding follows the source:
* `src/types.ts` — `Position`, `PhotoData`, `AppStatus`;
* `src/App.tsx` — the app state (`photos`, `stagedPhoto`, `status`) and the
  handlers `takePhoto` (capture pipeline with the 3:4 centre crop),
  `handlePhotoUpdate`, `handlePhotoDelete`, `handleDragRelease` and the
  inner `updateCaption` closure;
* `src/services/geminiService.ts` — `generatePhotoCaption`, modelled as a
  pure function of the outcome of the underlying model call.

JavaScript numbers are modelled as rationals (`ℚ`), nullable values as
`Option`, `Partial<PhotoData>` as a record of `Option` fields applied
field-wise (the object-spread semantics of `{...p, ...updates}`).
-/

namespace Pailide

/-- Screen coordinates, `Position` from src/types.ts. -/
structure Position where
  x : ℚ
  y : ℚ
deriving DecidableEq

/-- The photo record, `PhotoData` from src/types.ts. -/
structure PhotoData where
  id : String
  imageData : String
  caption : String
  dateString : String
  timestamp : ℚ
  isDeveloping : Bool
  isStaged : Bool
  position : Position
  rotation : ℚ
deriving DecidableEq

/-- `AppStatus` from src/types.ts. -/
inductive AppStatus where
  | IDLE
  | CAMERA_READY
  | TAKING_PHOTO
  | ERROR
deriving DecidableEq

/-- The mutable session state of `App` (src/App.tsx): the `status`,
`photos` and `stagedPhoto` `useState` cells.  The staged slot is a single
nullable cell, exactly as in the source. -/
structure AppState where
  status : AppStatus
  photos : List PhotoData
  stagedPhoto : Option PhotoData
deriving DecidableEq

/-- The initial state of the three `useState` cells:
`IDLE`, `[]`, `null`. -/
def initialState : AppState :=
  { status := AppStatus.IDLE, photos := [], stagedPhoto := none }

/-! ## Capture crop (src/App.tsx, takePhoto lines 75–98) -/

/-- The source rectangle passed to `ctx.drawImage`:
`sourceX, sourceY, sourceWidth, sourceHeight`. -/
structure CropRegion where
  sourceX : ℚ
  sourceY : ℚ
  sourceWidth : ℚ
  sourceHeight : ℚ
deriving DecidableEq

/-- `const targetWidth = 600`. -/
def targetWidth : ℚ := 600

/-- `const targetHeight = 800`. -/
def targetHeight : ℚ := 800

/-- `const targetRatio = targetWidth / targetHeight`. -/
def targetRatio : ℚ := targetWidth / targetHeight

/-- The crop computation of `takePhoto` (src/App.tsx lines 82–98):
centre-crop the video frame to the 3:4 target ratio, height-bound when the
frame is wider than the target ratio, width-bound otherwise. -/
def cropRegion (videoWidth videoHeight : ℚ) : CropRegion :=
  let videoRatio := videoWidth / videoHeight
  if videoRatio > targetRatio then
    let sourceHeight := videoHeight
    let sourceWidth := sourceHeight * targetRatio
    { sourceX := (videoWidth - sourceWidth) / 2
      sourceY := 0
      sourceWidth := sourceWidth
      sourceHeight := sourceHeight }
  else
    let sourceWidth := videoWidth
    let sourceHeight := sourceWidth / targetRatio
    { sourceX := 0
      sourceY := (videoHeight - sourceHeight) / 2
      sourceWidth := sourceWidth
      sourceHeight := sourceHeight }

/-! ## Claim C1 -/

/-- Claim C1: for a frame whose width/height ratio strictly exceeds the
target ratio 600/800 = 3/4, the crop has the full source height, width
`sourceHeight * 3/4`, x-offset `(sourceWidth - cropWidth)/2` and y-offset 0;
for a ratio less than or equal to the target ratio, the crop has the full
source width, height `sourceWidth / (3/4)`, x-offset 0 and y-offset
`(sourceHeight - cropHeight)/2`. -/
theorem crop_center_matches_3_4 (w h : ℚ) :
    (w / h > 600 / 800 →
      cropRegion w h =
        { sourceX := (w - h * (3 / 4)) / 2
          sourceY := 0
          sourceWidth := h * (3 / 4)
          sourceHeight := h }) ∧
    (w / h ≤ 600 / 800 →
      cropRegion w h =
        { sourceX := 0
          sourceY := (h - w / (3 / 4)) / 2
          sourceWidth := w
          sourceHeight := w / (3 / 4) }) := by
  constructor
  · intro hgt
    have hcond : w / h > targetRatio := by
      simpa [targetRatio, targetWidth, targetHeight] using hgt
    simp only [cropRegion, if_pos hcond]
    norm_num [targetRatio, targetWidth, targetHeight]
  · intro hle
    have hcond : ¬ w / h > targetRatio := by
      simp only [targetRatio, targetWidth, targetHeight]
      exact not_lt.mpr (by norm_num at hle ⊢; exact hle)
    simp only [cropRegion, if_neg hcond]
    norm_num [targetRatio, targetWidth, targetHeight]

/-- Concrete instances of C1: a 16:9 (wide) frame is height-bound and a
600×1000 (taller than 3:4) frame is width-bound, both centred. -/
theorem crop_center_matches_3_4_witness :
    cropRegion 1600 900 =
      { sourceX := (1600 - 675) / 2, sourceY := 0
        sourceWidth := 675, sourceHeight := 900 } ∧
    cropRegion 600 1000 =
      { sourceX := 0, sourceY := (1000 - 800) / 2
        sourceWidth := 600, sourceHeight := 800 } := by
  constructor
  · have hc := (crop_center_matches_3_4 1600 900).1 (by norm_num)
    rw [hc]
    norm_num
  · have hc := (crop_center_matches_3_4 600 1000).2 (by norm_num)
    rw [hc]
    norm_num

/-! ## Partial patches (`Partial<PhotoData>`) -/

/-- A `Partial<PhotoData>`: each field optionally present.  Applying it is
the object spread `{...p, ...updates}`. -/
structure PhotoPatch where
  id : Option String
  imageData : Option String
  caption : Option String
  dateString : Option String
  timestamp : Option ℚ
  isDeveloping : Option Bool
  isStaged : Option Bool
  position : Option Position
  rotation : Option ℚ
deriving DecidableEq

/-- The empty patch `{}`. -/
def emptyPatch : PhotoPatch :=
  ⟨none, none, none, none, none, none, none, none, none⟩

/-- The patch `{ caption: text }` sent by caption edits. -/
def captionPatch (text : String) : PhotoPatch :=
  { emptyPatch with caption := some text }

/-- The patch `{ isDeveloping: false }` sent by the develop timer in
src/components/PhotoCard.tsx (lines 37–45). -/
def developPatch : PhotoPatch :=
  { emptyPatch with isDeveloping := some false }

/-- Object spread `{...p, ...updates}`: a present patch field overrides. -/
def applyPatch (p : PhotoData) (u : PhotoPatch) : PhotoData :=
  { id := u.id.getD p.id
    imageData := u.imageData.getD p.imageData
    caption := u.caption.getD p.caption
    dateString := u.dateString.getD p.dateString
    timestamp := u.timestamp.getD p.timestamp
    isDeveloping := u.isDeveloping.getD p.isDeveloping
    isStaged := u.isStaged.getD p.isStaged
    position := u.position.getD p.position
    rotation := u.rotation.getD p.rotation }

/-! ## Lifecycle handlers (src/App.tsx) -/

/-- `handlePhotoUpdate` (src/App.tsx lines 145–150): patch the staged photo
when its id matches, and patch every matching photo of the wall list. -/
def handlePhotoUpdate (id : String) (updates : PhotoPatch) (s : AppState) :
    AppState :=
  { s with
    stagedPhoto :=
      match s.stagedPhoto with
      | some sp => if sp.id = id then some (applyPatch sp updates) else some sp
      | none => none
    photos :=
      s.photos.map (fun p => if p.id = id then applyPatch p updates else p) }

/-- `handlePhotoDelete` (src/App.tsx lines 152–158): clear the staged slot
when its id matches, otherwise filter the wall list. -/
def handlePhotoDelete (id : String) (s : AppState) : AppState :=
  match s.stagedPhoto with
  | some sp =>
      if sp.id = id then { s with stagedPhoto := none }
      else { s with photos := s.photos.filter (fun p => p.id != id) }
  | none => { s with photos := s.photos.filter (fun p => p.id != id) }

/-- `handleDragRelease` (src/App.tsx lines 161–171): when the staged photo
matches the id, append it to the wall with `isStaged := false` and the drop
point as position, and clear the staged slot; otherwise do nothing. -/
def handleDragRelease (id : String) (point : Position) (s : AppState) :
    AppState :=
  match s.stagedPhoto with
  | some sp =>
      if sp.id = id then
        { s with
          photos := s.photos ++ [{ sp with isStaged := false, position := point }]
          stagedPhoto := none }
      else s
  | none => s

/-- The inner `updateCaption` closure of `takePhoto` (src/App.tsx lines
133–136): set the caption of the staged photo when its id matches, and of
every matching wall photo. -/
def updateCaption (pid : String) (text : String) (s : AppState) : AppState :=
  { s with
    stagedPhoto :=
      match s.stagedPhoto with
      | some prev =>
          if prev.id = pid then some { prev with caption := text } else some prev
      | none => none
    photos :=
      s.photos.map (fun p => if p.id = pid then { p with caption := text } else p) }

/-! ## Capture (src/App.tsx, takePhoto) -/

/-- The data `takePhoto` draws from the environment: the generated random
id, the encoded canvas image, `Date.now()`, the locale date string and the
random tilt. -/
structure CaptureInput where
  id : String
  imageData : String
  timestamp : ℚ
  dateString : String
  rotation : ℚ
deriving DecidableEq

/-- The `newPhoto` literal of `takePhoto` (src/App.tsx lines 114–124). -/
def newPhoto (inp : CaptureInput) : PhotoData :=
  { id := inp.id
    imageData := inp.imageData
    caption := ""
    dateString := inp.dateString
    timestamp := inp.timestamp
    isDeveloping := true
    isStaged := true
    position := { x := 0, y := 0 }
    rotation := inp.rotation }

/-- The synchronous part of `takePhoto` (src/App.tsx lines 58–127): the
guard rejects unless the camera is ready and no photo is staged; with the
video/canvas surfaces available the new photo is staged and the status is
set back to `CAMERA_READY`, otherwise the status is left at
`TAKING_PHOTO`. -/
def takePhoto (inp : CaptureInput) (surfacesReady : Bool) (s : AppState) :
    AppState :=
  if s.status != AppStatus.CAMERA_READY || s.stagedPhoto.isSome then s
  else if surfacesReady then
    { s with
      stagedPhoto := some (newPhoto inp)
      status := AppStatus.CAMERA_READY }
  else
    { s with status := AppStatus.TAKING_PHOTO }

/-- The status effect of `startCamera` (src/App.tsx lines 26–48):
`CAMERA_READY` on success, `ERROR` on failure. -/
def startCameraResult (ok : Bool) (s : AppState) : AppState :=
  { s with status := if ok then AppStatus.CAMERA_READY else AppStatus.ERROR }

/-- Number of photos held by the staged slot (0 or 1). -/
def stagedCount (s : AppState) : ℕ :=
  match s.stagedPhoto with
  | some _ => 1
  | none => 0

/-- One UI event: camera initialisation result, a capture, a develop or
caption patch, a deletion, or a drag release. -/
inductive Step : AppState → AppState → Prop where
  | camera (ok : Bool) (s : AppState) : Step s (startCameraResult ok s)
  | capture (inp : CaptureInput) (b : Bool) (s : AppState) :
      Step s (takePhoto inp b s)
  | update (id : String) (u : PhotoPatch) (s : AppState) :
      Step s (handlePhotoUpdate id u s)
  | caption (pid text : String) (s : AppState) :
      Step s (updateCaption pid text s)
  | delete (id : String) (s : AppState) : Step s (handlePhotoDelete id s)
  | place (id : String) (pt : Position) (s : AppState) :
      Step s (handleDragRelease id pt s)

/-- States reachable from the initial state by UI events. -/
inductive Reachable : AppState → Prop where
  | init : Reachable initialState
  | step {s s' : AppState} : Reachable s → Step s s' → Reachable s'

/-! ## Caption service adapter (src/services/geminiService.ts) -/

/-- Outcome of the underlying `ai.models.generateContent` call:
it raises, or resolves with `response.text` (possibly absent). -/
inductive CaptionResult where
  | failure (msg : String)
  | success (text : Option String)
deriving DecidableEq

/-- `generatePhotoCaption` (src/services/geminiService.ts lines 11–50) as a
function of the call outcome: `response.text || "A beautiful moment..."` on
resolution (the empty string is falsy), `"Captured in time."` when the call
throws. -/
def generatePhotoCaption (r : CaptionResult) : String :=
  match r with
  | CaptionResult.failure _ => "Captured in time."
  | CaptionResult.success none => "A beautiful moment..."
  | CaptionResult.success (some t) => if t = "" then "A beautiful moment..." else t

/-- No record with the given id lives in either collection. -/
def noRecordWithId (s : AppState) (id : String) : Prop :=
  (∀ sp, s.stagedPhoto = some sp → sp.id ≠ id) ∧
  ∀ p ∈ s.photos, p.id ≠ id

/-! ## Shared sample data for concrete instances -/

/-- A sample capture input with id "a". -/
def sampleInput : CaptureInput :=
  { id := "a", imageData := "img", timestamp := 0, dateString := "d", rotation := 0 }

/-- A second sample capture input with id "b". -/
def sampleInputB : CaptureInput :=
  { id := "b", imageData := "img2", timestamp := 1, dateString := "d", rotation := 0 }

/-- The staged record produced from `sampleInput`. -/
def samplePhoto : PhotoData := newPhoto sampleInput

/-- A placed record with id "b". -/
def samplePlacedB : PhotoData :=
  { newPhoto sampleInputB with isStaged := false, position := { x := 3, y := 4 } }

/-- A ready state with an empty staged slot and an empty wall. -/
def emptyReady : AppState :=
  { status := AppStatus.CAMERA_READY, photos := [], stagedPhoto := none }

/-- A ready state with `samplePhoto` staged and `samplePlacedB` placed. -/
def busyState : AppState :=
  { status := AppStatus.CAMERA_READY
    photos := [samplePlacedB]
    stagedPhoto := some samplePhoto }

/-! ## Claim C2 -/

/-- Claim C2: in every reachable state the staged slot holds at most one
photo, and a capture attempted while the slot is occupied is rejected and
changes nothing (src/App.tsx lines 58–59: the guard of `takePhoto`). -/
theorem staged_slot_capacity_and_capture_guard :
    (∀ s : AppState, Reachable s → stagedCount s ≤ 1) ∧
    (∀ (s : AppState) (inp : CaptureInput) (b : Bool),
      s.stagedPhoto.isSome = true → takePhoto inp b s = s) := by
  constructor
  · intro s _
    cases h : s.stagedPhoto <;> simp [stagedCount, h]
  · intro s inp b hs
    simp [takePhoto, hs]

/-- Concrete instance of C2: capturing while `samplePhoto` is staged leaves
the state untouched. -/
theorem staged_slot_capacity_and_capture_guard_witness :
    takePhoto sampleInputB true busyState = busyState :=
  staged_slot_capacity_and_capture_guard.2 busyState sampleInputB true rfl

/-! ## Claim C3 -/

/-- Claim C3: `handleDragRelease id pt` moves a matching staged photo onto
the wall with `isStaged := false` and position `pt` and clears the slot;
with an empty slot or a non-matching id it changes nothing
(src/App.tsx lines 161–171). -/
theorem place_moves_staged_else_noop :
    ∀ (s : AppState) (id : String) (pt : Position),
      (∀ sp, s.stagedPhoto = some sp → sp.id = id →
        handleDragRelease id pt s =
          { s with
            photos := s.photos ++ [{ sp with isStaged := false, position := pt }]
            stagedPhoto := none }) ∧
      ((∀ sp, s.stagedPhoto = some sp → sp.id ≠ id) →
        handleDragRelease id pt s = s) := by
  intro s id pt
  constructor
  · intro sp hsp hid
    simp [handleDragRelease, hsp, hid]
  · intro hne
    cases hsp : s.stagedPhoto with
    | none => simp [handleDragRelease, hsp]
    | some sp => simp [handleDragRelease, hsp, hne sp hsp]

/-- Concrete instance of C3: releasing the staged photo "a" at (7, 8)
places it, and releasing with the wrong id "z" is a no-op. -/
theorem place_moves_staged_else_noop_witness :
    handleDragRelease "a" { x := 7, y := 8 } busyState =
      { busyState with
        photos :=
          busyState.photos ++
            [{ samplePhoto with isStaged := false, position := { x := 7, y := 8 } }]
        stagedPhoto := none } ∧
    handleDragRelease "z" { x := 7, y := 8 } busyState = busyState := by
  constructor
  · exact (place_moves_staged_else_noop busyState "a" { x := 7, y := 8 }).1
      samplePhoto rfl rfl
  · exact (place_moves_staged_else_noop busyState "z" { x := 7, y := 8 }).2
      (by intro sp hsp; cases hsp; decide)

/-! ## Claim C5 -/

/-- Claim C5: the caption adapter always returns a string (it is a total
function into `String`); when the underlying call raises it returns the
fixed fallback "Captured in time.", when the call resolves with an absent or
empty text it returns the fixed fallback "A beautiful moment...", and a
non-empty resolved text is returned as is
(src/services/geminiService.ts lines 11–50). -/
theorem caption_adapter_never_propagates_failure :
    (∀ msg, generatePhotoCaption (CaptionResult.failure msg) = "Captured in time.") ∧
    generatePhotoCaption (CaptionResult.success none) = "A beautiful moment..." ∧
    generatePhotoCaption (CaptionResult.success (some "")) = "A beautiful moment..." ∧
    (∀ t, t ≠ "" → generatePhotoCaption (CaptionResult.success (some t)) = t) := by
  refine ⟨fun msg => rfl, rfl, rfl, fun t ht => ?_⟩
  simp [generatePhotoCaption, ht]

/-! ## Claim C8 -/

/-- Claim C8: a successful capture stages a record with
`isDeveloping = true`, `isStaged = true` and an empty caption
(the literal at src/App.tsx lines 114–126). -/
theorem capture_creates_developing_staged_uncaptioned
    (inp : CaptureInput) (s : AppState)
    (hready : s.status = AppStatus.CAMERA_READY)
    (hempty : s.stagedPhoto = none) :
    (takePhoto inp true s).stagedPhoto = some (newPhoto inp) ∧
    (newPhoto inp).isDeveloping = true ∧
    (newPhoto inp).isStaged = true ∧
    (newPhoto inp).caption = "" := by
  refine ⟨?_, rfl, rfl, rfl⟩
  simp [takePhoto, hready, hempty]

/-- Concrete instance of C8: capturing `sampleInput` in the empty ready
state stages the fresh record. -/
theorem capture_creates_developing_staged_uncaptioned_witness :
    (takePhoto sampleInput true emptyReady).stagedPhoto = some (newPhoto sampleInput) ∧
    (newPhoto sampleInput).isDeveloping = true ∧
    (newPhoto sampleInput).isStaged = true ∧
    (newPhoto sampleInput).caption = "" :=
  capture_creates_developing_staged_uncaptioned sampleInput emptyReady rfl rfl

/-! ## Helper lemmas about the wall list -/

/-- Patching a list in which no id matches changes nothing. -/
theorem map_patch_eq_self (id : String) (u : PhotoPatch) (l : List PhotoData)
    (h : ∀ p ∈ l, p.id ≠ id) :
    l.map (fun p => if p.id = id then applyPatch p u else p) = l := by
  induction l with
  | nil => rfl
  | cons p t ih =>
    simp only [List.map_cons]
    rw [if_neg (h p (List.mem_cons_self p t)),
      ih (fun q hq => h q (List.mem_cons_of_mem p hq))]

/-! ## Claim C4 -/

/-- Claim C4: `handlePhotoUpdate id u` patches the record with that id in
whichever collection holds it — the staged slot and, position for position,
the wall list — and is a no-op when no record with the id exists; in
particular a caption patch issued for a photo that was staged is still
reflected on the wall after the photo has been placed
(src/App.tsx lines 133–136 and 145–150). -/
theorem update_patches_record_wherever_it_lives :
    ∀ (s : AppState) (id : String) (u : PhotoPatch) (c : String) (pt : Position),
      (noRecordWithId s id → handlePhotoUpdate id u s = s) ∧
      (∀ sp, s.stagedPhoto = some sp → sp.id = id →
        (handlePhotoUpdate id u s).stagedPhoto = some (applyPatch sp u)) ∧
      (∀ i : ℕ, (handlePhotoUpdate id u s).photos[i]? =
        (s.photos[i]?).map (fun p => if p.id = id then applyPatch p u else p)) ∧
      (∀ sp, s.stagedPhoto = some sp → sp.id = id →
        { sp with isStaged := false, position := pt, caption := c } ∈
          (updateCaption id c (handleDragRelease id pt s)).photos) := by
  intro s id u c pt
  refine ⟨?_, ?_, ?_, ?_⟩
  · rintro ⟨hstaged, hwall⟩
    obtain ⟨st, ph, sg⟩ := s
    simp only [handlePhotoUpdate]
    congr 1
    · exact map_patch_eq_self id u ph hwall
    · cases sg with
      | none => rfl
      | some sp =>
        show (if sp.id = id then some (applyPatch sp u) else some sp) = some sp
        rw [if_neg (hstaged sp rfl)]
  · intro sp hsp hid
    simp [handlePhotoUpdate, hsp, hid]
  · intro i
    simp [handlePhotoUpdate, List.getElem?_map]
  · intro sp hsp hid
    simp only [handleDragRelease, hsp, if_pos hid, updateCaption, List.map_append]
    refine List.mem_append_right _ ?_
    simp [hid]

/-- Concrete instance of C4: the caption patch "hello" for the staged photo
"a", arriving after the photo has been dropped at (7, 8), is reflected in
the wall record. -/
theorem update_patches_record_wherever_it_lives_witness :
    { samplePhoto with
        isStaged := false, position := { x := 7, y := 8 }, caption := "hello" } ∈
      (updateCaption "a" "hello"
        (handleDragRelease "a" { x := 7, y := 8 } busyState)).photos :=
  (update_patches_record_wherever_it_lives busyState "a" emptyPatch "hello"
    { x := 7, y := 8 }).2.2.2 samplePhoto rfl rfl

/-! ## Claim C7 -/

/-- Claim C7: `handlePhotoDelete id` clears the staged slot when its photo
matches the id, and otherwise filters every photo with that id out of the
wall list; afterwards no record with the id remains in the collection that
held it and records with other ids remain (src/App.tsx lines 152–158). -/
theorem delete_removes_record_by_id :
    ∀ (s : AppState) (id : String),
      (∀ sp, s.stagedPhoto = some sp → sp.id = id →
        handlePhotoDelete id s = { s with stagedPhoto := none }) ∧
      ((∀ sp, s.stagedPhoto = some sp → sp.id ≠ id) →
        handlePhotoDelete id s =
          { s with photos := s.photos.filter (fun p => p.id != id) } ∧
        (∀ p ∈ (handlePhotoDelete id s).photos, p.id ≠ id) ∧
        (∀ p ∈ s.photos, p.id ≠ id → p ∈ (handlePhotoDelete id s).photos)) := by
  intro s id
  constructor
  · intro sp hsp hid
    simp [handlePhotoDelete, hsp, hid]
  · intro hne
    have heq : handlePhotoDelete id s =
        { s with photos := s.photos.filter (fun p => p.id != id) } := by
      cases hsp : s.stagedPhoto with
      | none => simp [handlePhotoDelete, hsp]
      | some sp => simp [handlePhotoDelete, hsp, hne sp hsp]
    refine ⟨heq, ?_, ?_⟩
    · intro p hp
      rw [heq] at hp
      simpa using (List.mem_filter.mp hp).2
    · intro p hp hpid
      rw [heq]
      exact List.mem_filter.mpr ⟨hp, by simpa using hpid⟩

/-- Concrete instances of C7: deleting "a" clears the staged slot of
`busyState`; deleting "b" from a wall-only state filters the wall. -/
theorem delete_removes_record_by_id_witness :
    handlePhotoDelete "a" busyState = { busyState with stagedPhoto := none } ∧
    handlePhotoDelete "b"
        { status := AppStatus.CAMERA_READY
          photos := [samplePlacedB]
          stagedPhoto := none } =
      { status := AppStatus.CAMERA_READY
        photos := [samplePlacedB].filter (fun p => p.id != "b")
        stagedPhoto := none } := by
  constructor
  · exact (delete_removes_record_by_id busyState "a").1 samplePhoto rfl rfl
  · exact ((delete_removes_record_by_id
      { status := AppStatus.CAMERA_READY
        photos := [samplePlacedB]
        stagedPhoto := none } "b").2
      (fun sp hsp => Option.noConfusion hsp)).1

/-! ## Claim C9 -/

/-- The develop patch leaves the id untouched. -/
theorem applyPatch_develop_id (p : PhotoData) :
    (applyPatch p developPatch).id = p.id := rfl

/-- Applying the develop patch twice to a record equals applying it once. -/
theorem applyPatch_develop_idem (p : PhotoData) :
    applyPatch (applyPatch p developPatch) developPatch = applyPatch p developPatch :=
  rfl

/-- The develop patch changes nothing on an already developed record. -/
theorem applyPatch_develop_self (p : PhotoData) (h : p.isDeveloping = false) :
    applyPatch p developPatch = p := by
  cases p
  simp_all [applyPatch, developPatch, emptyPatch]

/-- Mapping the develop patch over the wall list is idempotent. -/
theorem map_develop_idem (id : String) (l : List PhotoData) :
    (l.map (fun p => if p.id = id then applyPatch p developPatch else p)).map
        (fun p => if p.id = id then applyPatch p developPatch else p) =
      l.map (fun p => if p.id = id then applyPatch p developPatch else p) := by
  induction l with
  | nil => rfl
  | cons p t ih =>
    simp only [List.map_cons, ih]
    by_cases h : p.id = id
    · have hx : (applyPatch p developPatch).id = id := by
        rw [applyPatch_develop_id]; exact h
      rw [if_pos h, if_pos hx, applyPatch_develop_idem]
    · rw [if_neg h, if_neg h]

/-- The wall list is unchanged when every matching record is developed. -/
theorem map_develop_self (id : String) (l : List PhotoData)
    (h : ∀ p ∈ l, p.id = id → p.isDeveloping = false) :
    l.map (fun p => if p.id = id then applyPatch p developPatch else p) = l := by
  induction l with
  | nil => rfl
  | cons p t ih =>
    simp only [List.map_cons]
    congr 1
    · by_cases hp : p.id = id
      · rw [if_pos hp]
        exact applyPatch_develop_self p (h p (List.mem_cons_self p t) hp)
      · rw [if_neg hp]
    · exact ih (fun q hq hqid => h q (List.mem_cons_of_mem p hq) hqid)

/-- Claim C9: the develop transition — the `{isDeveloping: false}` patch
sent by the timer in src/components/PhotoCard.tsx (lines 37–45) and applied
by `handlePhotoUpdate` — is idempotent, and developing a photo that is
already developed changes nothing. -/
theorem develop_transition_idempotent :
    ∀ (s : AppState) (id : String),
      handlePhotoUpdate id developPatch (handlePhotoUpdate id developPatch s) =
        handlePhotoUpdate id developPatch s ∧
      ((∀ sp, s.stagedPhoto = some sp → sp.id = id → sp.isDeveloping = false) →
        (∀ p ∈ s.photos, p.id = id → p.isDeveloping = false) →
        handlePhotoUpdate id developPatch s = s) := by
  intro s id
  constructor
  · obtain ⟨st, ph, sg⟩ := s
    simp only [handlePhotoUpdate]
    congr 1
    · exact map_develop_idem id ph
    · cases sg with
      | none => rfl
      | some sp =>
        by_cases h : sp.id = id
        · show (match (if sp.id = id then some (applyPatch sp developPatch)
              else some sp : Option PhotoData) with
            | some sp => if sp.id = id then some (applyPatch sp developPatch)
                else some sp
            | none => none) =
            (if sp.id = id then some (applyPatch sp developPatch) else some sp)
          have hx : (applyPatch sp developPatch).id = id := by
            rw [applyPatch_develop_id]; exact h
          rw [if_pos h]
          show (if (applyPatch sp developPatch).id = id then
              some (applyPatch (applyPatch sp developPatch) developPatch)
            else some (applyPatch sp developPatch)) =
            some (applyPatch sp developPatch)
          rw [if_pos hx, applyPatch_develop_idem]
        · show (match (if sp.id = id then some (applyPatch sp developPatch)
              else some sp : Option PhotoData) with
            | some sp => if sp.id = id then some (applyPatch sp developPatch)
                else some sp
            | none => none) =
            (if sp.id = id then some (applyPatch sp developPatch) else some sp)
          rw [if_neg h]
          show (if sp.id = id then some (applyPatch sp developPatch) else some sp) =
            some sp
          rw [if_neg h]
  · intro hstaged hwall
    obtain ⟨st, ph, sg⟩ := s
    simp only [handlePhotoUpdate]
    congr 1
    · exact map_develop_self id ph hwall
    · cases sg with
      | none => rfl
      | some sp =>
        show (if sp.id = id then some (applyPatch sp developPatch) else some sp) =
          some sp
        by_cases h : sp.id = id
        · rw [if_pos h, applyPatch_develop_self sp (hstaged sp rfl h)]
        · rw [if_neg h]

/-- Concrete instance of C9: applying the develop patch for "a" twice to
`busyState` equals applying it once. -/
theorem develop_transition_idempotent_witness :
    handlePhotoUpdate "a" developPatch (handlePhotoUpdate "a" developPatch busyState) =
      handlePhotoUpdate "a" developPatch busyState :=
  (develop_transition_idempotent busyState "a").1

/-! ## Claim C10 -/

/-- Frame condition: a staged record with a different id is kept as is, and
the wall records with a different id reappear unchanged, in their relative
order, in the new wall list. -/
def othersPreserved (id : String) (s t : AppState) : Prop :=
  (∀ sp, s.stagedPhoto = some sp → sp.id ≠ id → t.stagedPhoto = some sp) ∧
  (s.photos.filter (fun p => p.id != id)).Sublist t.photos

/-- Patching matching records keeps the non-matching ones, in order. -/
theorem filter_ne_sublist_map_patch (id : String) (u : PhotoPatch)
    (l : List PhotoData) :
    (l.filter (fun p => p.id != id)).Sublist
      (l.map (fun p => if p.id = id then applyPatch p u else p)) := by
  induction l with
  | nil => simp
  | cons p t ih =>
    by_cases h : p.id = id
    · have hb : (p.id != id) = false := by simp [h]
      simp only [List.filter_cons, hb, List.map_cons, if_pos h, Bool.false_eq_true,
        if_false]
      exact List.Sublist.cons _ ih
    · have hb : (p.id != id) = true := by simp [h]
      simp only [List.filter_cons, hb, List.map_cons, if_neg h, if_true]
      exact List.Sublist.cons₂ _ ih

/-- Claim C10: the id-keyed operations `update`, `delete` and `place` leave
every record whose id differs from the given id entirely unchanged and keep
the relative order of the remaining wall photos. -/
theorem id_ops_preserve_other_records :
    ∀ (s : AppState) (id : String) (u : PhotoPatch) (pt : Position),
      othersPreserved id s (handlePhotoUpdate id u s) ∧
      othersPreserved id s (handlePhotoDelete id s) ∧
      othersPreserved id s (handleDragRelease id pt s) := by
  intro s id u pt
  refine ⟨⟨?_, ?_⟩, ⟨?_, ?_⟩, ⟨?_, ?_⟩⟩
  · intro sp hsp hne
    simp [handlePhotoUpdate, hsp, hne]
  · simp only [handlePhotoUpdate]
    exact filter_ne_sublist_map_patch id u s.photos
  · intro sp hsp hne
    simp [handlePhotoDelete, hsp, hne]
  · cases hsp : s.stagedPhoto with
    | none => simp [handlePhotoDelete, hsp, List.filter_sublist]
    | some sp =>
      by_cases h : sp.id = id
      · simp only [handlePhotoDelete, hsp, if_pos h]
        exact List.filter_sublist s.photos
      · simp only [handlePhotoDelete, hsp, if_neg h]
        exact List.Sublist.refl _
  · intro sp hsp hne
    simp [handleDragRelease, hsp, hne]
  · cases hsp : s.stagedPhoto with
    | none => simp [handleDragRelease, hsp, List.filter_sublist]
    | some sp =>
      by_cases h : sp.id = id
      · simp only [handleDragRelease, hsp, if_pos h]
        exact (List.filter_sublist s.photos).trans
          (List.sublist_append_left s.photos _)
      · simp only [handleDragRelease, hsp, if_neg h]
        exact List.filter_sublist s.photos

/-- Concrete instance of C10: deleting "a" from `busyState` preserves the
wall record "b". -/
theorem id_ops_preserve_other_records_witness :
    othersPreserved "a" busyState (handlePhotoDelete "a" busyState) :=
  (id_ops_preserve_other_records busyState "a" emptyPatch
    { x := 0, y := 0 }).2.1

/-! ## Claim C6 -/

/-- A placed record with the same id "a" as `samplePhoto`. -/
def samplePlacedA : PhotoData :=
  { samplePhoto with isStaged := false, position := { x := 1, y := 2 } }

/-- A state in which the staged slot and the wall both hold a record with
id "a".  `handlePhotoDelete` clears only the staged slot here, because its
`else` branch — the wall filter — is not taken. -/
def conflictState : AppState :=
  { status := AppStatus.CAMERA_READY
    photos := [samplePlacedA]
    stagedPhoto := some samplePhoto }

/-- Counterexample to C6 as stated over every state: in `conflictState`
(staged and wall both hold id "a"), `delete "a"` followed by the caption
patch leaves a record with id "a" on the wall. -/
theorem delete_then_caption_counterexample :
    ∃ p ∈ (updateCaption "a" "c" (handlePhotoDelete "a" conflictState)).photos,
      p.id = "a" := by
  refine ⟨{ samplePlacedA with caption := "c" }, ?_, rfl⟩
  simp [updateCaption, handlePhotoDelete, conflictState, samplePlacedA,
    samplePhoto, newPhoto, sampleInput]

/-- Every record of a caption-patched list that had no id match keeps an
id different from the patched id. -/
theorem caption_map_preserves_ne (id c : String) (l : List PhotoData)
    (h : ∀ p ∈ l, p.id ≠ id) :
    ∀ p ∈ l.map (fun q => if q.id = id then { q with caption := c } else q),
      p.id ≠ id := by
  intro p hp
  rcases List.mem_map.mp hp with ⟨q, hq, rfl⟩
  rw [if_neg (h q hq)]
  exact h q hq

/-- Every record surviving the deletion filter has a different id. -/
theorem filter_ne_all (id : String) (l : List PhotoData) :
    ∀ p ∈ l.filter (fun q => q.id != id), p.id ≠ id := by
  intro p hp
  simpa using (List.mem_filter.mp hp).2

/-- Claim C6 (amended): in every state in which the staged slot and the
placed collection do not both hold a record with the given id, `delete(id)`
followed by the pending caption patch leaves no record with that id in
either collection (src/App.tsx lines 133–136 and 152–158). -/
theorem delete_then_caption_no_reintroduction :
    ∀ (s : AppState) (id c : String),
      ¬ ((∃ sp, s.stagedPhoto = some sp ∧ sp.id = id) ∧
          ∃ p ∈ s.photos, p.id = id) →
      noRecordWithId (updateCaption id c (handlePhotoDelete id s)) id := by
  intro s id c hx
  by_cases hstaged : ∃ sp, s.stagedPhoto = some sp ∧ sp.id = id
  · obtain ⟨sp, hs, hid⟩ := hstaged
    have hwall : ∀ p ∈ s.photos, p.id ≠ id := by
      intro p hp hpid
      exact hx ⟨⟨sp, hs, hid⟩, ⟨p, hp, hpid⟩⟩
    have hdel : handlePhotoDelete id s = { s with stagedPhoto := none } := by
      simp [handlePhotoDelete, hs, hid]
    rw [hdel]
    constructor
    · intro sp' h
      simp [updateCaption] at h
    · intro p hp
      simp only [updateCaption] at hp
      exact caption_map_preserves_ne id c s.photos hwall p hp
  · have hstagedne : ∀ sp, s.stagedPhoto = some sp → sp.id ≠ id := by
      intro sp h hid
      exact hstaged ⟨sp, h, hid⟩
    have hdel : handlePhotoDelete id s =
        { s with photos := s.photos.filter (fun p => p.id != id) } := by
      cases h : s.stagedPhoto with
      | none => simp [handlePhotoDelete, h]
      | some sp => simp [handlePhotoDelete, h, hstagedne sp h]
    rw [hdel]
    constructor
    · intro sp' h
      cases hst : s.stagedPhoto with
      | none => simp [updateCaption, hst] at h
      | some sp =>
        have hne := hstagedne sp hst
        simp only [updateCaption, hst, if_neg hne] at h
        injection h with h2
        rw [← h2]
        exact hne
    · intro p hp
      simp only [updateCaption] at hp
      exact caption_map_preserves_ne id c _ (filter_ne_all id s.photos) p hp

/-- Concrete instance of the amended C6: in `busyState` (staged "a", wall
"b"), deleting "a" and then patching its caption leaves no record with id
"a" anywhere. -/
theorem delete_then_caption_no_reintroduction_witness :
    noRecordWithId (updateCaption "a" "x" (handlePhotoDelete "a" busyState)) "a" :=
  delete_then_caption_no_reintroduction busyState "a" "x" (by
    rintro ⟨-, p, hp, hpid⟩
    simp [busyState, samplePlacedB, newPhoto, sampleInputB] at hp
    subst hp
    exact absurd hpid (by decide))

end Pailide
